import Mathlib

/-!
Model of the container execution inspector
(internal/app/master/inspectors/container/container_inspector.go).

Go maps are modelled as association lists (or key lists for set-like maps of
unit values) carrying the entries in the map's current iteration arrangement;
map indexing yields the zero value for a missing key; indexing an empty slice
is modelled as an explicit panic outcome; a nil pointer is modelled as an
Option that is none.
-/

namespace DockerSlim

/-- Container port identifier of the form "number/protocol" (dockerapi.Port). -/
abbrev Port := String

/-- Reserved sensor command port, CmdPortDefault in the source. The inspector
always uses this value for its CmdPort field. -/
def CmdPortDefault : Port := "65501/tcp"

/-- Reserved sensor event port, EvtPortDefault in the source. The inspector
always uses this value for its EvtPort field. -/
def EvtPortDefault : Port := "65502/tcp"

/-- In-container path of the sensor binary, SensorBinPath in the source. -/
def SensorBinPath : String := "/opt/dockerslim/bin/sensor"

/-- Message text of an IPC receive timeout, IpcErrRecvTimeoutStr in the source. -/
def IpcErrRecvTimeoutStr : String := "receive time out"

/-- Image configuration defaults read from the image inspector
(imageInspector.ImageInfo.Config). -/
structure ImageConfig where
  Entrypoint : List String
  Cmd : List String
deriving DecidableEq

/-- config.ContainerOverrides: the fields the container inspector reads.
ExposedPorts is a Go map from Port to the empty struct, so only its key list
(in iteration arrangement) carries information. -/
structure ContainerOverrides where
  Entrypoint : List String
  ClearEntrypoint : Bool
  Cmd : List String
  ClearCmd : Bool
  Env : List String
  Hostname : String
  ExposedPorts : List Port
  Network : String
deriving DecidableEq

/-- The entrypoint part of FatContainerCmd built by NewInspector
(container_inspector.go lines 111-120): when overrides is non-nil and its
Entrypoint is non-empty or ClearEntrypoint is set, the override Entrypoint is
appended when non-empty (nothing when clearing with an empty list); otherwise
the image default Entrypoint is appended when non-empty. -/
def NewInspectorEntrypointPart (img : ImageConfig) (overrides : Option ContainerOverrides) :
    List String :=
  match overrides with
  | some o =>
    if 0 < o.Entrypoint.length ∨ o.ClearEntrypoint = true then
      if 0 < o.Entrypoint.length then o.Entrypoint else []
    else
      if 0 < img.Entrypoint.length then img.Entrypoint else []
  | none =>
    if 0 < img.Entrypoint.length then img.Entrypoint else []

/-- The cmd part of FatContainerCmd built by NewInspector
(container_inspector.go lines 122-131), same shape as the entrypoint part. -/
def NewInspectorCmdPart (img : ImageConfig) (overrides : Option ContainerOverrides) :
    List String :=
  match overrides with
  | some o =>
    if 0 < o.Cmd.length ∨ o.ClearCmd = true then
      if 0 < o.Cmd.length then o.Cmd else []
    else
      if 0 < img.Cmd.length then img.Cmd else []
  | none =>
    if 0 < img.Cmd.length then img.Cmd else []

/-- FatContainerCmd as assembled by NewInspector: the entrypoint part appended
to by the cmd part (two sequential appends onto an initially nil slice). -/
def NewInspectorFatContainerCmd (img : ImageConfig) (overrides : Option ContainerOverrides) :
    List String :=
  NewInspectorEntrypointPart img overrides ++ NewInspectorCmdPart img overrides

/-- Modelled from the spec (section 4.1), for comparison with the code:
independently for entrypoint and cmd, if the override supplies a non-empty
list or explicitly requests clearing, the override value wins (an empty list
results from clearing with no replacement); otherwise the image default is
used. -/
def specResolvePart (ovList : List String) (clear : Bool) (imgDefault : List String) :
    List String :=
  if 0 < ovList.length ∨ clear = true then ovList else imgDefault

/-- Modelled from the spec (section 4.1): final command = resolved entrypoint
concatenated with resolved cmd; a nil overrides value behaves identically to
no override requested. -/
def specResolveFatContainerCmd (img : ImageConfig) (overrides : Option ContainerOverrides) :
    List String :=
  match overrides with
  | some o =>
    specResolvePart o.Entrypoint o.ClearEntrypoint img.Entrypoint ++
      specResolvePart o.Cmd o.ClearCmd img.Cmd
  | none =>
    specResolvePart [] false img.Entrypoint ++ specResolvePart [] false img.Cmd

/-- The reserved comms exposed-port map commsExposedPorts built by
RunContainer (lines 182-185): the two distinct reserved keys, each mapped to
the empty struct. The fold order models one iteration arrangement of this
two-key Go map; since the two keys differ, the resulting key set and
warnings do not depend on the arrangement. -/
def commsExposedPorts : List Port := [CmdPortDefault, EvtPortDefault]

/-- Go map assignment m[k] = v on a map of unit values: inserting a present
key overwrites its (unit) value and leaves the key set unchanged, otherwise
the key is added. -/
def mapAssignKey (m : List Port) (k : Port) : List Port :=
  if k ∈ m then m else m ++ [k]

/-- Result of the exposed-port computation: the final key set of
Config.ExposedPorts and the ports for which a comms-port-conflict warning was
logged. -/
structure ExposedPortsResult where
  ports : List Port
  warnings : List Port
deriving DecidableEq

/-- The exposed-port set built by RunContainer (lines 182-200): when the user
override map is non-empty it becomes the starting map and each reserved comms
port is assigned into it, logging a conflict warning first when the key is
already present; otherwise the set is exactly the reserved comms map. -/
def RunContainerExposedPorts (userPorts : List Port) : ExposedPortsResult :=
  if 0 < userPorts.length then
    commsExposedPorts.foldl
      (fun acc k =>
        { ports := mapAssignKey acc.ports k
          warnings := if k ∈ acc.ports then acc.warnings ++ [k] else acc.warnings })
      { ports := userPorts, warnings := [] }
  else
    { ports := commsExposedPorts, warnings := [] }

/-- pathMapKeys (lines 65-76): returns nil for an empty map, otherwise the
keys of the map in its iteration arrangement, in the order the range loop
visits them. No sorting is applied. -/
def pathMapKeys (m : List (String × Bool)) : List String :=
  if m.length = 0 then [] else m.map Prod.fst

/-- command.StartMonitor as populated by RunContainer; the omitted list
fields keep their zero value (nil, modelled as the empty list). -/
structure StartMonitor where
  AppName : String
  AppArgs : List String
  Excludes : List String
  Includes : List String
deriving DecidableEq

/-- The StartMonitor command built by RunContainer (lines 253-267): AppName is
FatContainerCmd indexed at 0 (a panic, modelled as none, when the slice is
empty), AppArgs is the remaining slice when there is more than one token,
and Excludes and Includes are the path-map keys when the respective map is
non-empty. -/
def RunContainerStartMonitor (fatContainerCmd : List String)
    (excludePaths includePaths : List (String × Bool)) : Option StartMonitor :=
  match fatContainerCmd with
  | [] => none
  | appName :: rest =>
    some
      { AppName := appName
        AppArgs := if 1 < (appName :: rest).length then rest else []
        Excludes := if 0 < excludePaths.length then pathMapKeys excludePaths else []
        Includes := if 0 < includePaths.length then pathMapKeys includePaths else [] }

/-- dockerapi.PortBinding: one published host endpoint of a container port. -/
structure PortBinding where
  HostIP : String
  HostPort : String
deriving DecidableEq

/-- The part of the inspected container state the launch validation reads:
NetworkSettings.Ports, a Go map from container port to its binding slice,
modelled as an association list in iteration arrangement. -/
structure NetworkSettings where
  Ports : List (Port × List PortBinding)
deriving DecidableEq

/-- Outcome of the post-inspect phase of RunContainer: a fatal validation
exit (errutils.FailWhen), a runtime panic, or channel initialization reached
with the first host ports bound to the two reserved container ports. -/
inductive LaunchStepResult where
  | fatal (msg : String)
  | panic
  | channels (cmdHostPort evtHostPort : String)
deriving DecidableEq

/-- Go map indexing NetworkSettings.Ports, yielding the zero value (the nil
slice) for a missing key. -/
def portsLookup (ports : List (Port × List PortBinding)) (k : Port) : List PortBinding :=
  match ports.find? (fun e => e.fst == k) with
  | some e => e.snd
  | none => []

/-- initContainerChannels (lines 362-383): reads the binding slices of the
reserved command and event ports and indexes each at 0 with no emptiness
check — a panic when either slice is empty — then opens the channels with the
host ports found there. -/
def initContainerChannels (ns : NetworkSettings) : LaunchStepResult :=
  let cmdPortBindings := portsLookup ns.Ports CmdPortDefault
  let evtPortBindings := portsLookup ns.Ports EvtPortDefault
  match cmdPortBindings, evtPortBindings with
  | c :: _, e :: _ => LaunchStepResult.channels c.HostPort e.HostPort
  | _, _ => LaunchStepResult.panic

/-- The post-inspect phase of RunContainer (lines 245-251): FailWhen exits
fatally when the inspected container has no network settings, then when the
published port-binding count is below the reserved comms-port count (the
two-key commsExposedPorts map); only then is initContainerChannels reached. -/
def RunContainerAfterInspect (networkSettings : Option NetworkSettings) : LaunchStepResult :=
  match networkSettings with
  | none => LaunchStepResult.fatal "docker-slim: error => no network info"
  | some ns =>
    if ns.Ports.length < commsExposedPorts.length then
      LaunchStepResult.fatal "docker-slim: error => missing comms ports"
    else
      initContainerChannels ns

/-- dockerapi.Config as populated by RunContainer for CreateContainer, the
fields this model tracks. -/
structure ContainerConfig where
  Image : String
  Entrypoint : List String
  Cmd : List String
  Env : List String
  Labels : List (String × String)
  Hostname : String
  ExposedPorts : List Port
deriving DecidableEq

/-- The create-container Config built by RunContainer (lines 153-200): the
sensor binary as the entrypoint, the optional debug flag as the command, and
Env, Hostname and ExposedPorts read through i.Overrides with no nil check —
a nil overrides pointer is dereferenced and the run panics, modelled as
none. -/
def RunContainerConfig (imageRef : String) (doDebug : Bool)
    (overrides : Option ContainerOverrides) : Option ContainerConfig :=
  match overrides with
  | none => none
  | some o =>
    some
      { Image := imageRef
        Entrypoint := [SensorBinPath]
        Cmd := if doDebug then ["-d"] else []
        Env := o.Env
        Labels := [("type", "dockerslim")]
        Hostname := o.Hostname
        ExposedPorts := (RunContainerExposedPorts o.ExposedPorts).ports }

/-- The ContainerOverrides value as observable after RunContainer has built
its launch configuration: the assignment Config.ExposedPorts :=
i.Overrides.ExposedPorts (line 188) aliases the override map when it is
non-empty, so the reserved-port assignments of the merge loop (line 194)
mutate the caller's map in place; with an empty user map a fresh two-key map
is installed instead and the overrides are untouched. NewInspector only ever
reads the overrides. -/
def overridesAfterRunContainer (o : ContainerOverrides) : ContainerOverrides :=
  if 0 < o.ExposedPorts.length then
    { o with ExposedPorts := (RunContainerExposedPorts o.ExposedPorts).ports }
  else o

/-- Concrete overrides value exhibiting the C8 mutation: one user exposed
port and nothing else. -/
def c8Overrides : ContainerOverrides :=
  { Entrypoint := []
    ClearEntrypoint := false
    Cmd := []
    ClearCmd := false
    Env := []
    Hostname := ""
    ExposedPorts := ["8080/tcp"]
    Network := "" }

/-- Concrete inspected state for the C9 witness: two published ports, neither
of them reserved. -/
def c9NetworkSettings : NetworkSettings :=
  { Ports := [("8080/tcp", [{ HostIP := "0.0.0.0", HostPort := "32768" }]),
              ("9090/tcp", [{ HostIP := "0.0.0.0", HostPort := "32769" }])] }

/-- Outbound sensor commands (pkg/ipc/command) sent over the command
channel. -/
inductive SensorCommand where
  | startMonitor
  | stopMonitor
  | shutdownSensor
deriving DecidableEq

/-- Outcome of one IPC call, an ok response or an error message string. -/
abbrev IpcResult := Except String String

/-- FinishMonitoring (lines 334-360), as the sequence of sensor commands it
sends given the environment's outcomes for the StopMonitor send and the event
wait: a StopMonitor failure is only warned on and the sequence proceeds;
when the event wait fails with exactly the receive-timeout message the
function returns early; every other event outcome (success or other errors,
which are warned on) is followed by the ShutdownSensor send. -/
def FinishMonitoring (stopRes : IpcResult) (evtRes : IpcResult) : List SensorCommand :=
  let afterStop := [SensorCommand.stopMonitor]
  match stopRes, evtRes with
  | _, Except.error e =>
      if e = IpcErrRecvTimeoutStr then afterStop
      else afterStop ++ [SensorCommand.shutdownSensor]
  | _, Except.ok _ => afterStop ++ [SensorCommand.shutdownSensor]

/-- The observable steps of ShutdownContainer, in the order they are
performed. -/
inductive TeardownStep where
  | shutdownChannels
  | showLogs
  | stopContainer (graceSeconds : Nat)
  | infoNotRunning
  | warnStopErr (msg : String)
  | removeContainer (removeVolumes force : Bool)
deriving DecidableEq

/-- Outcome of the StopContainer runtime call. -/
inductive StopContainerResult where
  | ok
  | containerNotRunning
  | otherErr (msg : String)
deriving DecidableEq

/-- ShutdownContainer (lines 303-331), as the ordered list of steps it
performs given whether log capture was requested and the StopContainer
outcome, paired with its returned error: channels are shut down first, logs
are shown when requested, StopContainer is called with grace period 9, a
ContainerNotRunning outcome is logged as informational and the logs are
shown if they were not already, any other stop error is only warned on
(WarnOn of a nil error records nothing), and a forced remove-with-volumes is
always attempted before returning nil. -/
def ShutdownContainer (showContainerLogs : Bool) (stopRes : StopContainerResult) :
    List TeardownStep × Option String :=
  let afterChannels :=
    [TeardownStep.shutdownChannels] ++
      (if showContainerLogs then [TeardownStep.showLogs] else [])
  let afterStop := afterChannels ++ [TeardownStep.stopContainer 9]
  let afterStopHandling := afterStop ++
    (match stopRes with
     | StopContainerResult.containerNotRunning =>
        [TeardownStep.infoNotRunning] ++
          (if !showContainerLogs then [TeardownStep.showLogs] else [])
     | StopContainerResult.otherErr m => [TeardownStep.warnStopErr m]
     | StopContainerResult.ok => [])
  (afterStopHandling ++ [TeardownStep.removeContainer true true], none)

theorem if_pos_length_self (l : List String) : (if 0 < l.length then l else []) = l := by
  cases l <;> simp

theorem resolvePart_eq_spec (ovList : List String) (clear : Bool) (imgDefault : List String) :
    (if 0 < ovList.length ∨ clear = true then
        (if 0 < ovList.length then ovList else [])
      else
        (if 0 < imgDefault.length then imgDefault else [])) =
      specResolvePart ovList clear imgDefault := by
  unfold specResolvePart
  cases ovList <;> cases clear <;> simp [if_pos_length_self]

theorem mem_mapAssignKey_self (m : List Port) (k : Port) : k ∈ mapAssignKey m k := by
  unfold mapAssignKey
  split
  · assumption
  · exact List.mem_append_right _ (List.mem_singleton.mpr rfl)

theorem mem_mapAssignKey_of_mem (m : List Port) (k a : Port) (h : a ∈ m) :
    a ∈ mapAssignKey m k := by
  unfold mapAssignKey
  split
  · exact h
  · exact List.mem_append_left _ h

theorem nodup_mapAssignKey (m : List Port) (k : Port) (h : m.Nodup) :
    (mapAssignKey m k).Nodup := by
  unfold mapAssignKey
  split
  · exact h
  · rename_i hk
    simp [List.nodup_append, h, hk]

theorem runContainerExposedPorts_ports_eq (u : List Port) (hu : 0 < u.length) :
    (RunContainerExposedPorts u).ports =
      mapAssignKey (mapAssignKey u CmdPortDefault) EvtPortDefault := by
  unfold RunContainerExposedPorts
  rw [if_pos hu]
  rfl

theorem runContainerExposedPorts_warnings_eq (u : List Port) (hu : 0 < u.length) :
    (RunContainerExposedPorts u).warnings =
      (if EvtPortDefault ∈ mapAssignKey u CmdPortDefault then
        (if CmdPortDefault ∈ u then [] ++ [CmdPortDefault] else []) ++ [EvtPortDefault]
      else
        (if CmdPortDefault ∈ u then [] ++ [CmdPortDefault] else [])) := by
  unfold RunContainerExposedPorts
  rw [if_pos hu]
  rfl

theorem cmd_mem_runContainerExposedPorts (u : List Port) :
    CmdPortDefault ∈ (RunContainerExposedPorts u).ports := by
  by_cases hu : 0 < u.length
  · rw [runContainerExposedPorts_ports_eq u hu]
    exact mem_mapAssignKey_of_mem _ _ _ (mem_mapAssignKey_self _ _)
  · unfold RunContainerExposedPorts
    rw [if_neg hu]
    simp [commsExposedPorts]

theorem evt_mem_runContainerExposedPorts (u : List Port) :
    EvtPortDefault ∈ (RunContainerExposedPorts u).ports := by
  by_cases hu : 0 < u.length
  · rw [runContainerExposedPorts_ports_eq u hu]
    exact mem_mapAssignKey_self _ _
  · unfold RunContainerExposedPorts
    rw [if_neg hu]
    simp [commsExposedPorts]

theorem user_mem_runContainerExposedPorts (u : List Port) (k : Port) (h : k ∈ u) :
    k ∈ (RunContainerExposedPorts u).ports := by
  have hu : 0 < u.length := List.length_pos.mpr (by rintro rfl; simp at h)
  rw [runContainerExposedPorts_ports_eq u hu]
  exact mem_mapAssignKey_of_mem _ _ _ (mem_mapAssignKey_of_mem _ _ _ h)

theorem nodup_runContainerExposedPorts (u : List Port) (h : u.Nodup) :
    (RunContainerExposedPorts u).ports.Nodup := by
  by_cases hu : 0 < u.length
  · rw [runContainerExposedPorts_ports_eq u hu]
    exact nodup_mapAssignKey _ _ (nodup_mapAssignKey _ _ h)
  · unfold RunContainerExposedPorts
    rw [if_neg hu]
    simp [commsExposedPorts, CmdPortDefault, EvtPortDefault]

theorem warning_of_reserved_user_port (u : List Port) (k : Port) (hku : k ∈ u)
    (hk : k = CmdPortDefault ∨ k = EvtPortDefault) :
    k ∈ (RunContainerExposedPorts u).warnings := by
  have hu : 0 < u.length := List.length_pos.mpr (by rintro rfl; simp at hku)
  rw [runContainerExposedPorts_warnings_eq u hu]
  rcases hk with rfl | rfl
  · split <;> simp [hku]
  · rw [if_pos (mem_mapAssignKey_of_mem _ _ _ hku)]
    simp

/-- C2: for every combination of image defaults and overrides (entrypoint
override non-empty or absent, clear-entrypoint flag, cmd override non-empty or
absent, clear-cmd flag, overrides possibly nil), the FatContainerCmd resolved
by NewInspector equals the spec's independent-merge rule: resolved entrypoint
concatenated with resolved cmd, the override winning exactly when it is
non-empty or the clear flag is set, and nil overrides behaving like no
override. -/
theorem NewInspector_resolves_fat_cmd_as_spec
    (img : ImageConfig) (overrides : Option ContainerOverrides) :
    NewInspectorFatContainerCmd img overrides = specResolveFatContainerCmd img overrides := by
  cases overrides with
  | none =>
      simp [NewInspectorFatContainerCmd, NewInspectorEntrypointPart, NewInspectorCmdPart,
        specResolveFatContainerCmd, specResolvePart, if_pos_length_self]
  | some o =>
      show (if 0 < o.Entrypoint.length ∨ o.ClearEntrypoint = true then
              (if 0 < o.Entrypoint.length then o.Entrypoint else [])
            else
              (if 0 < img.Entrypoint.length then img.Entrypoint else [])) ++
           (if 0 < o.Cmd.length ∨ o.ClearCmd = true then
              (if 0 < o.Cmd.length then o.Cmd else [])
            else
              (if 0 < img.Cmd.length then img.Cmd else [])) = _
      rw [resolvePart_eq_spec, resolvePart_eq_spec]
      rfl

/-- C3: for every user exposed-port override map (whose keys are distinct, as
Go map keys always are), the exposed-port set built by RunContainer contains
the reserved command port and event port, has exactly one entry per distinct
key, and records a conflict warning (not an error: the computation always
completes with a result) for every user key that equals a reserved key; the
reserved keys end up present regardless of the conflict. -/
theorem RunContainer_exposed_ports_invariant (userPorts : List Port)
    (h : userPorts.Nodup) :
    CmdPortDefault ∈ (RunContainerExposedPorts userPorts).ports ∧
    EvtPortDefault ∈ (RunContainerExposedPorts userPorts).ports ∧
    (RunContainerExposedPorts userPorts).ports.Nodup ∧
    (∀ k ∈ userPorts, (k = CmdPortDefault ∨ k = EvtPortDefault) →
      k ∈ (RunContainerExposedPorts userPorts).warnings) := by
  refine ⟨cmd_mem_runContainerExposedPorts userPorts,
          evt_mem_runContainerExposedPorts userPorts,
          nodup_runContainerExposedPorts userPorts h, ?_⟩
  intro k hk hres
  exact warning_of_reserved_user_port userPorts k hk hres

/-- Witness for C3 at a colliding concrete input: the user requests the
reserved command port itself; it stays present and is warned about. -/
theorem RunContainer_exposed_ports_invariant_witness :
    CmdPortDefault ∈ (RunContainerExposedPorts [CmdPortDefault]).ports ∧
    CmdPortDefault ∈ (RunContainerExposedPorts [CmdPortDefault]).warnings :=
  ⟨(RunContainer_exposed_ports_invariant [CmdPortDefault] (by simp)).1,
   (RunContainer_exposed_ports_invariant [CmdPortDefault] (by simp)).2.2.2
     CmdPortDefault (by simp) (Or.inl rfl)⟩

/-- C4 counterexample: with the exclude map containing the two keys of the
spec's scenario in the iteration arrangement that visits "/var/log" first,
StartMonitor.Excludes is emitted in that iteration order, not in the stable
sorted order the claim requires. -/
theorem RunContainer_startMonitor_excludes_not_sorted :
    (RunContainerStartMonitor ["/bin/app"] [("/var/log", true), ("/tmp", true)] []).map
        StartMonitor.Excludes = some ["/var/log", "/tmp"] ∧
      (["/var/log", "/tmp"] : List String) ≠ ["/tmp", "/var/log"] := by
  constructor
  · rfl
  · decide

/-- C4 amended: for every non-empty exclude-path map, StartMonitor.Excludes
equals the keys of the map in its iteration order (no sorting is applied, so
the order is whatever arrangement the map presents), and Includes stays
empty (omitted) when the include-path map is empty. -/
theorem RunContainer_startMonitor_excludes_iteration_order
    (excludePaths : List (String × Bool)) (appName : String) (rest : List String)
    (h : 0 < excludePaths.length) :
    (RunContainerStartMonitor (appName :: rest) excludePaths []).map
        StartMonitor.Excludes = some (excludePaths.map Prod.fst) ∧
    (RunContainerStartMonitor (appName :: rest) excludePaths []).map
        StartMonitor.Includes = some [] := by
  unfold RunContainerStartMonitor pathMapKeys
  constructor
  · simp only [Option.map]
    rw [if_pos h, if_neg (by omega)]
  · simp [Option.map]

/-- Witness for C4 amended at the spec scenario's key set. -/
theorem RunContainer_startMonitor_excludes_iteration_order_witness :
    (RunContainerStartMonitor ["/bin/app"] [("/tmp", true), ("/var/log", true)] []).map
        StartMonitor.Excludes = some ["/tmp", "/var/log"] ∧
    (RunContainerStartMonitor ["/bin/app"] [("/tmp", true), ("/var/log", true)] []).map
        StartMonitor.Includes = some [] :=
  RunContainer_startMonitor_excludes_iteration_order
    [("/tmp", true), ("/var/log", true)] "/bin/app" [] (by decide)

/-- C7: whenever FatContainerCmd is non-empty (written as a head token and a
remaining list), the StartMonitor command built by RunContainer has AppName
equal to the first token and AppArgs equal to the remaining tokens (the zero
value, the empty list, when there is exactly one token). -/
theorem RunContainer_startMonitor_app_fields (appName : String) (rest : List String)
    (excludePaths includePaths : List (String × Bool)) :
    (RunContainerStartMonitor (appName :: rest) excludePaths includePaths).map
        StartMonitor.AppName = some appName ∧
    (RunContainerStartMonitor (appName :: rest) excludePaths includePaths).map
        StartMonitor.AppArgs = some rest := by
  cases rest <;> simp [RunContainerStartMonitor]

/-- C5: after the inspect step, a missing NetworkSettings or a published
port-binding count below the reserved-port count (two) is a deterministic
fatal failure — a fatal result, produced by the pure validation itself with
no channel operation and no network call — and initContainerChannels is
reached exactly when network settings are present and the count is at least
two. -/
theorem RunContainer_channel_gate (networkSettings : Option NetworkSettings) :
    (networkSettings = none →
      RunContainerAfterInspect networkSettings =
        LaunchStepResult.fatal "docker-slim: error => no network info") ∧
    (∀ ns, networkSettings = some ns → ns.Ports.length < 2 →
      RunContainerAfterInspect networkSettings =
        LaunchStepResult.fatal "docker-slim: error => missing comms ports") ∧
    (∀ ns, networkSettings = some ns → 2 ≤ ns.Ports.length →
      RunContainerAfterInspect networkSettings = initContainerChannels ns) := by
  refine ⟨?_, ?_, ?_⟩
  · rintro rfl
    rfl
  · rintro ns rfl hlt
    show (if ns.Ports.length < commsExposedPorts.length then
        LaunchStepResult.fatal "docker-slim: error => missing comms ports"
      else initContainerChannels ns) = _
    rw [if_pos (by simpa [commsExposedPorts] using hlt)]
  · rintro ns rfl hge
    show (if ns.Ports.length < commsExposedPorts.length then
        LaunchStepResult.fatal "docker-slim: error => missing comms ports"
      else initContainerChannels ns) = _
    rw [if_neg (by simp [commsExposedPorts]; omega)]

/-- Witness for C5 at the missing-network-settings input. -/
theorem RunContainer_channel_gate_witness :
    RunContainerAfterInspect none =
      LaunchStepResult.fatal "docker-slim: error => no network info" :=
  (RunContainer_channel_gate none).1 rfl

/-- C9: for every inspected state that passes the launch validation with two
or more published bindings, none of which is a reserved comms port,
initContainerChannels indexes the empty binding slice of the missing reserved
command port: the run panics instead of returning an error (the result is
the panic outcome, not a fatal error). -/
theorem initContainerChannels_panics_without_reserved_ports (ns : NetworkSettings)
    (hn : 2 ≤ ns.Ports.length)
    (hres : ∀ e ∈ ns.Ports, e.fst ≠ CmdPortDefault ∧ e.fst ≠ EvtPortDefault) :
    RunContainerAfterInspect (some ns) = LaunchStepResult.panic := by
  have hcmd : portsLookup ns.Ports CmdPortDefault = [] := by
    unfold portsLookup
    rw [List.find?_eq_none.mpr]
    intro e he
    simpa using (hres e he).1
  show (if ns.Ports.length < commsExposedPorts.length then
      LaunchStepResult.fatal "docker-slim: error => missing comms ports"
    else initContainerChannels ns) = _
  rw [if_neg (by simp [commsExposedPorts]; omega)]
  cases hevt : portsLookup ns.Ports EvtPortDefault <;>
    simp [initContainerChannels, hcmd, hevt]

/-- Witness for C9 at the concrete two-port state. -/
theorem initContainerChannels_panics_without_reserved_ports_witness :
    RunContainerAfterInspect (some c9NetworkSettings) = LaunchStepResult.panic :=
  initContainerChannels_panics_without_reserved_ports c9NetworkSettings
    (by decide) (by decide)

/-- C10: NewInspector accepts a nil overrides pointer and resolves the image
defaults for it, yet RunContainer dereferences the same pointer
unconditionally when building the launch configuration, so the run panics
(none) instead of launching with image defaults. -/
theorem RunContainer_nil_overrides_panics (img : ImageConfig) (imageRef : String)
    (doDebug : Bool) :
    NewInspectorFatContainerCmd img none = img.Entrypoint ++ img.Cmd ∧
    RunContainerConfig imageRef doDebug none = none := by
  constructor
  · simp [NewInspectorFatContainerCmd, NewInspectorEntrypointPart, NewInspectorCmdPart,
      if_pos_length_self]
  · rfl

/-- C8 counterexample: the overrides value with user exposed port "8080/tcp"
is not identical after RunContainer builds its configuration — the reserved
comms ports have been inserted into its ExposedPorts map through the alias. -/
theorem Overrides_mutated_counterexample :
    overridesAfterRunContainer c8Overrides ≠ c8Overrides := by
  decide

/-- C8 amended: the inspector never mutates the overrides except through the
ExposedPorts alias: every other field is identical after RunContainer, an
empty user exposed-port map stays untouched, and a non-empty one is mutated
exactly by the reserved-port merge — the reserved command and event keys are
inserted and every user key is kept. -/
theorem Overrides_mutation_frame (o : ContainerOverrides) :
    (overridesAfterRunContainer o).Entrypoint = o.Entrypoint ∧
    (overridesAfterRunContainer o).ClearEntrypoint = o.ClearEntrypoint ∧
    (overridesAfterRunContainer o).Cmd = o.Cmd ∧
    (overridesAfterRunContainer o).ClearCmd = o.ClearCmd ∧
    (overridesAfterRunContainer o).Env = o.Env ∧
    (overridesAfterRunContainer o).Hostname = o.Hostname ∧
    (overridesAfterRunContainer o).Network = o.Network ∧
    (o.ExposedPorts = [] → overridesAfterRunContainer o = o) ∧
    (0 < o.ExposedPorts.length →
      CmdPortDefault ∈ (overridesAfterRunContainer o).ExposedPorts ∧
      EvtPortDefault ∈ (overridesAfterRunContainer o).ExposedPorts ∧
      ∀ k ∈ o.ExposedPorts, k ∈ (overridesAfterRunContainer o).ExposedPorts) := by
  unfold overridesAfterRunContainer
  by_cases h : 0 < o.ExposedPorts.length
  · rw [if_pos h]
    refine ⟨rfl, rfl, rfl, rfl, rfl, rfl, rfl, ?_, ?_⟩
    · intro he
      rw [he] at h
      simp at h
    · intro _
      exact ⟨cmd_mem_runContainerExposedPorts o.ExposedPorts,
             evt_mem_runContainerExposedPorts o.ExposedPorts,
             fun k hk => user_mem_runContainerExposedPorts o.ExposedPorts k hk⟩
  · rw [if_neg h]
    exact ⟨rfl, rfl, rfl, rfl, rfl, rfl, rfl, fun _ => rfl, fun hpos => absurd hpos h⟩

/-- Witness for C8 amended at the concrete overrides with one user port. -/
theorem Overrides_mutation_frame_witness :
    (overridesAfterRunContainer c8Overrides).Hostname = c8Overrides.Hostname ∧
    CmdPortDefault ∈ (overridesAfterRunContainer c8Overrides).ExposedPorts :=
  ⟨(Overrides_mutation_frame c8Overrides).2.2.2.2.2.1,
   ((Overrides_mutation_frame c8Overrides).2.2.2.2.2.2.2.2 (by decide)).1⟩

/-- C1 counterexample: in the third scenario variant — StopMonitor succeeds
and the event wait times out — FinishMonitoring returns early and the
ShutdownSensor send count is zero, not one. -/
theorem FinishMonitoring_timeout_skips_shutdown :
    (FinishMonitoring (Except.ok "ok") (Except.error "receive time out")).count
      SensorCommand.shutdownSensor ≠ 1 := by
  decide

/-- C1 amended: FinishMonitoring sends StopMonitor exactly once and its
behavior is independent of the StopMonitor outcome, so a StopMonitor failure
never prevents the remaining sub-steps; ShutdownSensor is sent exactly once
when the event wait does not report the receive-timeout message (event
arrival or any other error), but on a receive timeout the function returns
early and ShutdownSensor is not sent at all. -/
theorem FinishMonitoring_shutdown_once_unless_timeout (stopRes evtRes : IpcResult) :
    (FinishMonitoring stopRes evtRes).count SensorCommand.stopMonitor = 1 ∧
    FinishMonitoring stopRes evtRes = FinishMonitoring (Except.ok "") evtRes ∧
    (evtRes = Except.error IpcErrRecvTimeoutStr →
      FinishMonitoring stopRes evtRes = [SensorCommand.stopMonitor]) ∧
    (evtRes ≠ Except.error IpcErrRecvTimeoutStr →
      FinishMonitoring stopRes evtRes =
        [SensorCommand.stopMonitor, SensorCommand.shutdownSensor]) := by
  cases evtRes with
  | ok r =>
      refine ⟨by simp [FinishMonitoring, List.count_cons], rfl, ?_, fun _ => rfl⟩
      intro h
      exact absurd h (by simp)
  | error e =>
      by_cases he : e = IpcErrRecvTimeoutStr
      · subst he
        refine ⟨?_, rfl, fun _ => ?_, fun hne => absurd rfl hne⟩
        · simp [FinishMonitoring, List.count_cons]
        · simp [FinishMonitoring]
      · refine ⟨?_, rfl, fun h => ?_, fun _ => ?_⟩
        · simp [FinishMonitoring, he, List.count_cons]
        · exact absurd (by injection h) he
        · simp [FinishMonitoring, he]

/-- Witness for C1 amended: StopMonitor fails yet ShutdownSensor is still
sent exactly once, since the event arrived. -/
theorem FinishMonitoring_shutdown_once_unless_timeout_witness :
    FinishMonitoring (Except.error "session failed") (Except.ok "done") =
      [SensorCommand.stopMonitor, SensorCommand.shutdownSensor] :=
  (FinishMonitoring_shutdown_once_unless_timeout
      (Except.error "session failed") (Except.ok "done")).2.2.2 (by simp)

/-- C6: ShutdownContainer always returns no error and performs its steps in
the fixed order — channel shutdown first, stop with grace period 9 in the
middle, a forced remove-with-volumes last — and when the stop reports the
container is not running, that outcome is recorded as informational rather
than as a stop warning, the logs are shown exactly once (also when they were
not requested up front), and the removal is still the final step. -/
theorem ShutdownContainer_fixed_order (showContainerLogs : Bool)
    (stopRes : StopContainerResult) :
    (ShutdownContainer showContainerLogs stopRes).2 = none ∧
    (ShutdownContainer showContainerLogs stopRes).1.head? =
      some TeardownStep.shutdownChannels ∧
    (ShutdownContainer showContainerLogs stopRes).1.getLast? =
      some (TeardownStep.removeContainer true true) ∧
    TeardownStep.stopContainer 9 ∈ (ShutdownContainer showContainerLogs stopRes).1 ∧
    (stopRes = StopContainerResult.containerNotRunning →
      TeardownStep.infoNotRunning ∈ (ShutdownContainer showContainerLogs stopRes).1 ∧
      (∀ m, TeardownStep.warnStopErr m ∉ (ShutdownContainer showContainerLogs stopRes).1) ∧
      (ShutdownContainer showContainerLogs stopRes).1.count TeardownStep.showLogs = 1) := by
  cases showContainerLogs <;> cases stopRes <;>
    simp [ShutdownContainer, List.count_cons, List.getLast?]

/-- Witness for C6 in the not-running scenario with no log capture
requested: teardown returns no error, records the informational outcome, and
still shows the logs. -/
theorem ShutdownContainer_fixed_order_witness :
    (ShutdownContainer false StopContainerResult.containerNotRunning).2 = none ∧
    TeardownStep.infoNotRunning ∈
      (ShutdownContainer false StopContainerResult.containerNotRunning).1 :=
  ⟨(ShutdownContainer_fixed_order false StopContainerResult.containerNotRunning).1,
   ((ShutdownContainer_fixed_order false StopContainerResult.containerNotRunning).2.2.2.2
      rfl).1⟩

end DockerSlim
